import Mathlib

/-!
# docker-volume-freenas: the lifecycle controller of `main.go`

A shallow embedding of the volume driver (`FreeNASISCSIDriver` in `main.go`).

* The volume map `d.volumes` is an association list keyed by volume name.
* The driver talks to three collaborators: the FreeNAS REST client (package
  `freenas`), the iSCSI helpers (package `utils`) and the operating system
  (`os`, `exec`).  Each call to one of them is answered by an `Env`, a
  deterministic but arbitrary environment: every answer may depend on the whole
  history of earlier calls and answers.  Theorems quantify over all `Env`.
* Every call is appended to a trace together with the way it ended, so that
  "no call was issued" and "this step failed" are statements about the trace.
* `log.Fatal` ends the process (`os.Exit(1)`): an operation therefore either
  returns to its caller or exits.  The REST client calls `log.Fatal` itself on
  a transport error, hence its calls have the third answer `fatal`.
* The collaborators are taken at their Go signatures; runtime panics inside
  them (slice indexing in the discovery parser) are outside the model.
* The mutex of the driver serialises the operations; each operation is one
  atomic step here.
* Go's `int` is 64 bits wide.  The product of the capacity check in `Create`
  and the increment and decrement of the connection counter are taken modulo
  `2^64` (`wrapInt64`).
-/

/-- Go's 64-bit two's-complement `int`: the value in `[-2^63, 2^63)` congruent to `x`. -/
def wrapInt64 (x : Int) : Int := (x + 2 ^ 63) % 2 ^ 64 - 2 ^ 63

/-- Model of `strconv.Atoi` (Go standard library) on a 64-bit platform: an
optional sign followed by decimal digits.  The pair is the returned `int` and
whether the error is `nil`.  A syntax error returns `0`; a value out of range
returns the nearest bound. -/
def strconvAtoi (s : String) : Int × Bool :=
  let cs := s.toList
  let neg : Bool := cs.head? == some '-'
  let ds := if cs.head? == some '-' || cs.head? == some '+' then cs.tail else cs
  if ds.isEmpty || !(ds.all Char.isDigit) then (0, false)
  else
    let n : Nat := ds.foldl (fun a c => 10 * a + (c.toNat - 48)) 0
    if neg then (if n > 2 ^ 63 then (-(2 ^ 63), false) else (-(n : Int), true))
    else (if n ≥ 2 ^ 63 then (2 ^ 63 - 1, false) else ((n : Int), true))

namespace freenas

/-- The type `freenas.Volume`: a storage pool of the appliance. -/
structure Volume where
  Avail : Int
  Status : String
  VolGUID : String
  Used : Int
  Name : String
  UsedPct : String
  ID : Int
  MountPoint : String
deriving DecidableEq

/-- The zero value `freenas.Volume{}`. -/
def Volume.zero : Volume :=
  { Avail := 0, Status := "", VolGUID := "", Used := 0, Name := "", UsedPct := "",
    ID := 0, MountPoint := "" }

/-- The type `freenas.ZVolume`. -/
structure ZVolume where
  Name : String
  VolSize : Int
deriving DecidableEq

/-- The type `freenas.ISCSITarget`. -/
structure ISCSITarget where
  Alias : String
  Name : String
  ID : Int
deriving DecidableEq

/-- The type `freenas.ISCSITargetGroup`. -/
structure ISCSITargetGroup where
  PortlID : Int
  TargetID : Int
  ID : Int
deriving DecidableEq

/-- The type `freenas.ISCSIExtent`. -/
structure ISCSIExtent where
  ID : Int
  Type_ : String
  Name : String
  Path : String
deriving DecidableEq

/-- The type `freenas.ISCSITargetToExtent`. -/
structure ISCSITargetToExtent where
  ID : Int
  TargetID : Int
  ExtentID : Int
  LunID : Int
deriving DecidableEq

end freenas

/-- The record `FreeNASISCSIVolume` of `main.go`. -/
structure FreeNASISCSIVolume where
  Size : Int
  Name : String
  Mountpoint : String
  TargetID : Int
  ExtentID : Int
  TargetGroupID : Int
  TargetToExtentID : Int
  PoolName : String
  connections : Int
deriving DecidableEq

/-- The map `d.volumes`, from volume name to record. -/
abbrev Registry := List (String × FreeNASISCSIVolume)

namespace Registry

/-- The lookup `d.volumes[name]`. -/
def get (m : Registry) (name : String) : Option FreeNASISCSIVolume :=
  match m with
  | [] => none
  | (k, v) :: rest => if k = name then some v else get rest name

/-- The assignment `d.volumes[name] = v`; also the write through the record
pointer stored under `name`. -/
def set (m : Registry) (name : String) (v : FreeNASISCSIVolume) : Registry :=
  match m with
  | [] => [(name, v)]
  | (k, w) :: rest => if k = name then (name, v) :: rest else (k, w) :: set rest name v

/-- The deletion `delete(d.volumes, name)`. -/
def delete (m : Registry) (name : String) : Registry :=
  m.filter (fun kv => !(kv.1 == name))

end Registry

/-- The fields of `FreeNASISCSIDriver` (the mutex and the client handle apart). -/
structure FreeNASISCSIDriver where
  root : String
  statePath : String
  url : String
  hostname : String
  username : String
  password : String
  volumes : Registry
  freenasPortal : Int
deriving DecidableEq

/-- The answer of a call to the REST client of package `freenas`: a value, a
returned error, or `log.Fatal` inside the client (the process ends). -/
inductive Reply (α : Type) where
  | ok (val : α)
  | error (msg : String)
  | fatal
deriving DecidableEq

/-- The answer of `os.Lstat` and `os.Stat`: file information, a not-exist
error, or any other error. -/
inductive FileStat where
  | info (isDir : Bool)
  | notExist
  | failed (msg : String)
deriving DecidableEq

/-- The calls the driver makes to its collaborators. -/
inductive Call where
  | GetVolumeList
  | CreateZFSVolume (volName zfsVolName : String) (size : Int)
  | CreateISCSITarget (targetName : String)
  | CreateISCSITargetGroup (targetID portalID : Int)
  | CreateISCSIExtent (extentName volName zvolName : String)
  | CreateISCSITargetToExtent (targetID extentID : Int)
  | DeleteISCSITargetToExtent (id : Int)
  | DeleteISCSIExtent (extentID : Int)
  | DeleteISCSITargetGroup (id : Int)
  | DeleteISCSITarget (targetID : Int)
  | DeleteZFSVolume (volName zfsVolName : String)
  | WriteFile (path : String)
  | Lstat (path : String)
  | MkdirAll (path : String)
  | FindISCSIIQN (hostname targetname : String)
  | LoginISCSITarget (iqn : String)
  | LogoutISCSITarget (iqn : String)
  | GetISCSIDiskPath (hostname targetname : String)
  | Stat (path : String)
  | Sleep
  | GetBlkDevType (devpath : String)
  | FormatXFS (diskpath : String)
  | Sh (cmd : String)
deriving DecidableEq

/-- How a call ended: without error, with a returned error, or by ending the process. -/
inductive Status where
  | ok
  | error (msg : String)
  | fatal
deriving DecidableEq

/-- One entry of the trace: a call and how it ended. -/
structure Event where
  call : Call
  status : Status
deriving DecidableEq

/-- The environment: the answer to each call, given the trace before it. -/
structure Env where
  GetVolumeList : List Event → Reply (List freenas.Volume)
  CreateZFSVolume : List Event → String → String → Int → Reply freenas.ZVolume
  CreateISCSITarget : List Event → String → Reply freenas.ISCSITarget
  CreateISCSITargetGroup : List Event → Int → Int → Reply freenas.ISCSITargetGroup
  CreateISCSIExtent : List Event → String → String → String → Reply freenas.ISCSIExtent
  CreateISCSITargetToExtent : List Event → Int → Int → Reply freenas.ISCSITargetToExtent
  DeleteISCSITargetToExtent : List Event → Int → Reply Unit
  DeleteISCSIExtent : List Event → Int → Reply Unit
  DeleteISCSITargetGroup : List Event → Int → Reply Unit
  DeleteISCSITarget : List Event → Int → Reply Unit
  DeleteZFSVolume : List Event → String → String → Reply Unit
  WriteFile : List Event → String → Option String
  Lstat : List Event → String → FileStat
  MkdirAll : List Event → String → Option String
  FindISCSIIQN : List Event → String → String → Except String String
  LoginISCSITarget : List Event → String → Option String
  LogoutISCSITarget : List Event → String → Option String
  GetISCSIDiskPath : List Event → String → String → Except String String
  Stat : List Event → String → FileStat
  GetBlkDevType : List Event → String → String
  FormatXFS : List Event → String → Option String
  Sh : List Event → String → Option String
  filepathJoin : String → String → String

/-- The status recorded for an answer of the REST client. -/
def Reply.status {α : Type} : Reply α → Status
  | .ok _ => .ok
  | .error msg => .error msg
  | .fatal => .fatal

/-- The status recorded for a Go `error` result (`none` is `nil`). -/
def errStatus : Option String → Status
  | none => .ok
  | some msg => .error msg

/-- The status recorded for a `(string, error)` result. -/
def exceptStatus : Except String String → Status
  | .ok _ => .ok
  | .error msg => .error msg

/-- The status recorded for a `Stat` or `Lstat` answer. -/
def FileStat.status : FileStat → Status
  | .info _ => .ok
  | .notExist => .error "file does not exist"
  | .failed msg => .error msg

/-- The driver together with the trace of the calls made so far. -/
structure State where
  driver : FreeNASISCSIDriver
  trace : List Event
deriving DecidableEq

/-- Appends one call to the trace. -/
def State.log (s : State) (c : Call) (st : Status) : State :=
  { s with trace := s.trace ++ [⟨c, st⟩] }

/-- Replaces the volume map of the driver. -/
def State.setVolumes (s : State) (m : Registry) : State :=
  { s with driver := { s.driver with volumes := m } }

/-- The end of an operation: it returns `val` to its caller, or the process
exits inside it (`log.Fatal`). Both carry the state reached. -/
inductive Result (α : Type) where
  | returned (val : α) (s : State)
  | exited (s : State)

/-- The state in which an operation ended. -/
def Result.state {α : Type} : Result α → State
  | .returned _ s => s
  | .exited s => s

/-- The calls an operation started from `s` has added to the trace. -/
def Result.newEvents {α : Type} (r : Result α) (s : State) : List Event :=
  r.state.trace.drop s.trace.length

/-- The request `volume.CreateRequest`; `Options` lists the entries of the Go map. -/
structure CreateRequest where
  Name : String
  Options : List (String × String)
deriving DecidableEq

namespace FreeNASISCSIDriver

/-- The method `saveState`: the volume map is marshalled and written to the
state file; a write error is logged and nothing else happens. -/
def saveState (env : Env) (s : State) : State :=
  s.log (.WriteFile s.driver.statePath) (errStatus (env.WriteFile s.trace s.driver.statePath))

/-- The loop over `r.Options` in `Create`: the value of `v.Size` after it. -/
def sizeOption (options : List (String × String)) : Int :=
  options.foldl (fun size kv => if kv.1 = "size" then (strconvAtoi kv.2).1 else size) 0

/-- The loop over `freeVols` in `Create`: the pool kept in `volume`. -/
def maxAvailVolume (freeVols : List freenas.Volume) : freenas.Volume :=
  freeVols.foldl (fun volume vol => if vol.Avail > volume.Avail then vol else volume)
    freenas.Volume.zero

/-- The method `Create`. The result is the returned `error` (`none` is `nil`). -/
def Create (env : Env) (s : State) (r : CreateRequest) : Result (Option String) :=
  let size := sizeOption r.Options
  if size = 0 then .returned (some "Invalid size value") s
  else
    let vols := env.GetVolumeList s.trace
    let s0 := s.log .GetVolumeList vols.status
    match vols with
    | .fatal => .exited s0
    | _ =>
      let freeVols := match vols with
        | .ok l => l
        | _ => []
      let volume := maxAvailVolume freeVols
      if volume.Avail < wrapInt64 (1024 * 1024 * 1024 * size) then
        .returned (some "Insufficient volume size") s0
      else
        let name := "docker-" ++ r.Name
        let zvol := env.CreateZFSVolume s0.trace volume.Name name size
        let s1 := s0.log (.CreateZFSVolume volume.Name name size) zvol.status
        match zvol with
        | .fatal => .exited s1
        | .error msg => .returned (some msg) s1
        | .ok _ =>
          let target := env.CreateISCSITarget s1.trace name
          let s2 := s1.log (.CreateISCSITarget name) target.status
          match target with
          | .fatal => .exited s2
          | .error msg => .returned (some msg) s2
          | .ok target =>
            let tgroup := env.CreateISCSITargetGroup s2.trace target.ID s.driver.freenasPortal
            let s3 := s2.log (.CreateISCSITargetGroup target.ID s.driver.freenasPortal)
              tgroup.status
            match tgroup with
            | .fatal => .exited s3
            | .error msg => .returned (some msg) s3
            | .ok tgroup =>
              let extent := env.CreateISCSIExtent s3.trace name volume.Name name
              let s4 := s3.log (.CreateISCSIExtent name volume.Name name) extent.status
              match extent with
              | .fatal => .exited s4
              | .error msg => .returned (some msg) s4
              | .ok extent =>
                let tte := env.CreateISCSITargetToExtent s4.trace target.ID extent.ID
                let s5 := s4.log (.CreateISCSITargetToExtent target.ID extent.ID) tte.status
                match tte with
                | .fatal => .exited s5
                | .error msg => .returned (some msg) s5
                | .ok tte =>
                  let v : FreeNASISCSIVolume :=
                    { Size := size, Name := name,
                      Mountpoint := env.filepathJoin s.driver.root r.Name,
                      TargetID := target.ID, ExtentID := extent.ID,
                      TargetGroupID := tgroup.ID, TargetToExtentID := tte.ID,
                      PoolName := volume.Name, connections := 0 }
                  .returned none
                    (saveState env (s5.setVolumes (s5.driver.volumes.set r.Name v)))

/-- The method `Get`: the name and mountpoint of the record, or an error
(with an empty response). -/
def Get (s : State) (name : String) : Result (Except String (String × String)) :=
  match s.driver.volumes.get name with
  | none => .returned (.error "volume not found") s
  | some v => .returned (.ok (name, v.Mountpoint)) s

/-- The method `Remove`. The results of the five delete calls are discarded. -/
def Remove (env : Env) (s : State) (name : String) : Result (Option String) :=
  match s.driver.volumes.get name with
  | none => .returned (some "Volume not found") s
  | some v =>
    if v.connections ≠ 0 then
      .returned (some ("volume " ++ name ++ " is currently used by a container")) s
    else
      let r1 := env.DeleteISCSITargetToExtent s.trace v.TargetToExtentID
      let s1 := s.log (.DeleteISCSITargetToExtent v.TargetToExtentID) r1.status
      match r1 with
      | .fatal => .exited s1
      | _ =>
        let r2 := env.DeleteISCSIExtent s1.trace v.ExtentID
        let s2 := s1.log (.DeleteISCSIExtent v.ExtentID) r2.status
        match r2 with
        | .fatal => .exited s2
        | _ =>
          let r3 := env.DeleteISCSITargetGroup s2.trace v.TargetGroupID
          let s3 := s2.log (.DeleteISCSITargetGroup v.TargetGroupID) r3.status
          match r3 with
          | .fatal => .exited s3
          | _ =>
            let r4 := env.DeleteISCSITarget s3.trace v.TargetID
            let s4 := s3.log (.DeleteISCSITarget v.TargetID) r4.status
            match r4 with
            | .fatal => .exited s4
            | _ =>
              let r5 := env.DeleteZFSVolume s4.trace v.PoolName v.Name
              let s5 := s4.log (.DeleteZFSVolume v.PoolName v.Name) r5.status
              match r5 with
              | .fatal => .exited s5
              | _ => .returned none (saveState env (s5.setVolumes (s5.driver.volumes.delete name)))

/-- The method `Path`: the mountpoint of the record, or an error. -/
def Path (s : State) (name : String) : Result (Except String String) :=
  match s.driver.volumes.get name with
  | none => .returned (.error "volume not found") s
  | some v => .returned (.ok v.Mountpoint) s

/-- The loop of `mountVolume` that waits for the device node: at most `n`
rounds of `os.Stat`, each followed by a one-second sleep while the node does
not exist. -/
def waitForDisk (env : Env) (diskpath : String) : Nat → State → State
  | 0, s => s
  | n + 1, s =>
    let st := env.Stat s.trace diskpath
    let s1 := s.log (.Stat diskpath) st.status
    match st with
    | .notExist => waitForDisk env diskpath n (s1.log .Sleep .ok)
    | _ => s1

/-- The method `mountVolume`: the returned `error` and the state reached. -/
def mountVolume (env : Env) (s : State) (v : FreeNASISCSIVolume) : Option String × State :=
  let found := env.FindISCSIIQN s.trace s.driver.hostname v.Name
  let s1 := s.log (.FindISCSIIQN s.driver.hostname v.Name) (exceptStatus found)
  match found with
  | .error msg => (some msg, s1)
  | .ok iqn =>
    let s2 := s1.log (.LoginISCSITarget iqn) (errStatus (env.LoginISCSITarget s1.trace iqn))
    let resolved := env.GetISCSIDiskPath s2.trace s.driver.hostname v.Name
    let s3 := s2.log (.GetISCSIDiskPath s.driver.hostname v.Name) (exceptStatus resolved)
    match resolved with
    | .error msg => (some msg, s3)
    | .ok diskpath =>
      let s4 := waitForDisk env diskpath 5 s3
      let blktype := env.GetBlkDevType s4.trace diskpath
      let s5 := s4.log (.GetBlkDevType diskpath) .ok
      let formatted : Option String × State :=
        if blktype ≠ "xfs" then
          let err := env.FormatXFS s5.trace diskpath
          (err, s5.log (.FormatXFS diskpath) (errStatus err))
        else (none, s5)
      match formatted with
      | (some msg, s6) => (some msg, s6)
      | (none, s6) =>
        let cmd := "mount " ++ diskpath ++ " " ++ v.Mountpoint
        let err := env.Sh s6.trace cmd
        (err, s6.log (.Sh cmd) (errStatus err))

/-- The method `Mount`: the mountpoint, or an error (with an empty response). The
increment `v.connections++` is that of a 64-bit `int`. -/
def Mount (env : Env) (s : State) (name : String) : Result (Except String String) :=
  match s.driver.volumes.get name with
  | none => .exited s
  | some v =>
    let first : Result (Option String) :=
      if v.connections = 0 then
        let fi := env.Lstat s.trace v.Mountpoint
        let s1 := s.log (.Lstat v.Mountpoint) fi.status
        match fi with
        | .failed _ => .exited s1
        | .info false => .exited s1
        | .info true =>
          match mountVolume env s1 v with
          | (err, s2) => .returned err s2
        | .notExist =>
          let made := env.MkdirAll s1.trace v.Mountpoint
          let s2 := s1.log (.MkdirAll v.Mountpoint) (errStatus made)
          match made with
          | some _ => .exited s2
          | none =>
            match mountVolume env s2 v with
            | (err, s3) => .returned err s3
      else .returned none s
    match first with
    | .exited s1 => .exited s1
    | .returned (some msg) s1 => .returned (.error msg) s1
    | .returned none s1 =>
      .returned (.ok v.Mountpoint)
        (s1.setVolumes (s1.driver.volumes.set name
          { v with connections := wrapInt64 (v.connections + 1) }))

/-- The method `unmountVolume`: the returned `error` and the state reached.
The error of the discovery is overwritten; on error its `iqn` is empty. -/
def unmountVolume (env : Env) (s : State) (v : FreeNASISCSIVolume) : Option String × State :=
  let found := env.FindISCSIIQN s.trace s.driver.hostname v.Name
  let iqn := match found with
    | .ok iqn => iqn
    | .error _ => ""
  let s1 := s.log (.FindISCSIIQN s.driver.hostname v.Name) (exceptStatus found)
  let cmd := "umount " ++ v.Mountpoint
  let err := env.Sh s1.trace cmd
  let s2 := s1.log (.Sh cmd) (errStatus err)
  match err with
  | some msg => (some msg, s2)
  | none =>
    let out := env.LogoutISCSITarget s2.trace iqn
    (out, s2.log (.LogoutISCSITarget iqn) (errStatus out))

/-- The method `Unmount`. The result is the returned `error`. The decrement
`v.connections--` is that of a 64-bit `int`. -/
def Unmount (env : Env) (s : State) (name : String) : Result (Option String) :=
  match s.driver.volumes.get name with
  | none => .returned (some "volume not found") s
  | some v =>
    let v1 : FreeNASISCSIVolume := { v with connections := wrapInt64 (v.connections - 1) }
    let s1 := s.setVolumes (s.driver.volumes.set name v1)
    if v1.connections ≤ 0 then
      match unmountVolume env s1 v1 with
      | (some msg, s2) => .returned (some msg) s2
      | (none, s2) =>
        .returned none (s2.setVolumes (s2.driver.volumes.set name { v1 with connections := 0 }))
    else .returned none s1

/-- The method `List`: the name and mountpoint of every record. -/
def List (s : State) : Result (List (String × String)) :=
  .returned (s.driver.volumes.map (fun kv => (kv.1, kv.2.Mountpoint))) s

end FreeNASISCSIDriver

/-- The five provisioning calls of `Create`. -/
def Call.isProvision : Call → Bool
  | .CreateZFSVolume _ _ _ => true
  | .CreateISCSITarget _ => true
  | .CreateISCSITargetGroup _ _ => true
  | .CreateISCSIExtent _ _ _ => true
  | .CreateISCSITargetToExtent _ _ => true
  | _ => false

/-- The five teardown calls of `Remove`. -/
def Call.isDelete : Call → Bool
  | .DeleteISCSITargetToExtent _ => true
  | .DeleteISCSIExtent _ => true
  | .DeleteISCSITargetGroup _ => true
  | .DeleteISCSITarget _ => true
  | .DeleteZFSVolume _ _ => true
  | _ => false

/-- The connection count recorded for `name`, if the volume exists. -/
def State.connections (s : State) (name : String) : Option Int :=
  (s.driver.volumes.get name).map (fun v => v.connections)

/-! ## Concrete environments and states used to run the model -/

/-- The pools of the demonstration appliance: `tank`, with 100 GiB available. -/
def demoPools : List freenas.Volume :=
  [{ Avail := 107374182400, Status := "HEALTHY", VolGUID := "1", Used := 0,
     Name := "tank", UsedPct := "0%", ID := 1, MountPoint := "/mnt/tank" }]

/-- An environment in which every call succeeds: one pool `tank` with 100 GiB
free, an existing mountpoint directory, a device already formatted as xfs. -/
def Env.allOk : Env where
  GetVolumeList := fun _ => .ok demoPools
  CreateZFSVolume := fun _ _ zfsVolName size => .ok { Name := zfsVolName, VolSize := size }
  CreateISCSITarget := fun _ targetName => .ok { Alias := "", Name := targetName, ID := 11 }
  CreateISCSITargetGroup := fun _ targetID portalID =>
    .ok { PortlID := portalID, TargetID := targetID, ID := 12 }
  CreateISCSIExtent := fun _ extentName volName zvolName =>
    .ok { ID := 13, Type_ := "Disk", Name := extentName,
          Path := "/dev/zvol/" ++ volName ++ "/" ++ zvolName }
  CreateISCSITargetToExtent := fun _ targetID extentID =>
    .ok { ID := 14, TargetID := targetID, ExtentID := extentID, LunID := 0 }
  DeleteISCSITargetToExtent := fun _ _ => .ok ()
  DeleteISCSIExtent := fun _ _ => .ok ()
  DeleteISCSITargetGroup := fun _ _ => .ok ()
  DeleteISCSITarget := fun _ _ => .ok ()
  DeleteZFSVolume := fun _ _ _ => .ok ()
  WriteFile := fun _ _ => none
  Lstat := fun _ _ => .info true
  MkdirAll := fun _ _ => none
  FindISCSIIQN := fun _ _ targetname => .ok ("iqn.2005-10.org.freenas.ctl:" ++ targetname)
  LoginISCSITarget := fun _ _ => none
  LogoutISCSITarget := fun _ _ => none
  GetISCSIDiskPath := fun _ _ _ => .ok "/dev/disk/by-path/lun-0"
  Stat := fun _ _ => .info false
  GetBlkDevType := fun _ _ => "xfs"
  FormatXFS := fun _ _ => none
  Sh := fun _ _ => none
  filepathJoin := fun dir name => dir ++ "/" ++ name

/-- A record as `Create` leaves it for the volume `v1` of 5 GiB. -/
def demoVolume : FreeNASISCSIVolume :=
  { Size := 5, Name := "docker-v1", Mountpoint := "/mnt/freenas/volumes/v1", TargetID := 11,
    ExtentID := 13, TargetGroupID := 12, TargetToExtentID := 14, PoolName := "tank",
    connections := 0 }

/-- A driver whose registry holds the given records, with an empty trace. -/
def demoState (volumes : Registry) : State :=
  { driver :=
      { root := "/mnt/freenas/volumes", statePath := "/mnt/freenas/freenas-state.json",
        url := "http://nas", hostname := "nas", username := "root", password := "secret",
        volumes := volumes, freenasPortal := 1 },
    trace := [] }

/-- As `Env.allOk`, but every shell command (`mount`, `umount`) fails. -/
def Env.shFails : Env :=
  { Env.allOk with Sh := fun _ _ => some "exit status 32" }

/-- As `Env.allOk`, but the iSCSI login fails. -/
def Env.loginFails : Env :=
  { Env.allOk with LoginISCSITarget := fun _ _ => some "exit status 8" }

/-- As `Env.allOk`, but the mountpoint does not exist and cannot be created. -/
def Env.mkdirFails : Env :=
  { Env.allOk with
    Lstat := fun _ _ => .notExist
    MkdirAll := fun _ _ => some "permission denied" }

/-- As `Env.allOk`, but the iSCSI discovery fails. -/
def Env.discoveryFails : Env :=
  { Env.allOk with FindISCSIIQN := fun _ _ _ => .error "exit status 4" }

/-- As `Env.allOk`, but the request that deletes the extent cannot be sent: the REST
client ends the process. -/
def Env.extentFatal : Env :=
  { Env.allOk with DeleteISCSIExtent := fun _ _ => .fatal }

/-- As `Env.allOk`, but creating the iSCSI target answers with an HTTP error. -/
def Env.targetFails : Env :=
  { Env.allOk with CreateISCSITarget := fun _ _ => .error "HTTP Status: 500" }

/-- As `Env.allOk`, but deleting the extent and the target answer with an HTTP error. -/
def Env.deleteFails : Env :=
  { Env.allOk with
    DeleteISCSIExtent := fun _ _ => .error "HTTP Status: 404"
    DeleteISCSITarget := fun _ _ => .error "HTTP Status: 500" }

/-- A pool with the given name and available bytes. -/
def demoPool (name : String) (avail : Int) : freenas.Volume :=
  { Avail := avail, Status := "HEALTHY", VolGUID := "1", Used := 0, Name := name,
    UsedPct := "0%", ID := 1, MountPoint := "/mnt/" ++ name }

/-- As `Env.allOk`, but the appliance reports the given pools. -/
def Env.withPools (pools : List freenas.Volume) : Env :=
  { Env.allOk with GetVolumeList := fun _ => .ok pools }

/-! ## The REST client of package `freenas`: the requests it issues -/

namespace freenas

/-- An HTTP request as `HttpRequest` receives it: method, URL and body. -/
structure Request where
  method : String
  url : String
  body : Option String
deriving DecidableEq

/-- The request issued by the method `CreateISCSITargetToExtent` of a client with base
URL `url`; the body is the JSON object of the two identifiers. -/
def CreateISCSITargetToExtent (url : String) (targetID extentID : Int) : Request :=
  { method := "POST",
    url := url ++ "/api/v1.0/services/iscsi/targettoextent/",
    body := some ("\x7b\"iscsi_extent\":" ++ toString extentID ++ ",\"iscsi_target\":" ++
      toString targetID ++ "\x7d") }

/-- The request issued by the method `DeleteISCSIExtent`. -/
def DeleteISCSIExtent (url : String) (extentID : Int) : Request :=
  { method := "DELETE",
    url := url ++ "/api/v1.0/services/iscsi/extent/" ++ (toString extentID ++ "/"),
    body := none }

/-- The request issued by the method `DeleteISCSITargetToExtent`. -/
def DeleteISCSITargetToExtent (url : String) (id : Int) : Request :=
  { method := "DELETE",
    url := url ++ "/api/v1.0/services/iscsi/extent/" ++ (toString id ++ "/"),
    body := none }

/-- The request issued by the method `GetISCSITargetToExtentList`. -/
def GetISCSITargetToExtentList (url : String) : Request :=
  { method := "GET", url := url ++ "/api/v1.0/services/iscsi/targettoextent/", body := none }

end freenas

/-! ## Startup: `newFreeNASISCSIDriver` -/

namespace freenas

/-- The type `freenas.Service`. -/
structure Service where
  Name : String
  Status : Bool
  ID : Int
deriving DecidableEq

/-- The type `freenas.ISCSIPortal`. -/
structure ISCSIPortal where
  ID : Int
  IPs : List String
deriving DecidableEq

end freenas

/-- The calls made during startup. -/
inductive StartupCall where
  | Lstat (path : String)
  | ServicStatus (srvName : String)
  | UpdateService (srvName : String) (enable : Bool)
  | GetISCSIPortalList
  | CreateISCSIPortal (ips : List String)
  | ReadFile (path : String)
deriving DecidableEq

/-- One entry of the startup trace: a call and how it ended. -/
structure StartupEvent where
  call : StartupCall
  status : Status
deriving DecidableEq

/-- The create-portal calls. -/
def StartupCall.isCreatePortal : StartupCall → Bool
  | .CreateISCSIPortal _ => true
  | _ => false

/-- The answer of `ServicStatus`: the service and the error returned with it (a failed
request returns the zero service, a failed decoding whatever was decoded), or `log.Fatal`
inside the client. -/
inductive ServiceReply where
  | ret (service : freenas.Service) (err : Option String)
  | fatal
deriving DecidableEq

/-- The status recorded for an answer of `ServicStatus`. -/
def ServiceReply.status : ServiceReply → Status
  | .ret _ err => errStatus err
  | .fatal => .fatal

/-- The answer of `ioutil.ReadFile`: the content, a not-exist error, or any other error. -/
inductive FileData where
  | data (bytes : String)
  | notExist
  | failed (msg : String)
deriving DecidableEq

/-- The status recorded for an answer of `ioutil.ReadFile`. -/
def FileData.status : FileData → Status
  | .data _ => .ok
  | .notExist => .error "file does not exist"
  | .failed msg => .error msg

/-- The environment of the startup: the answer to each call, given the trace before it.
`urlHostname` is `url.Parse` followed by `Hostname()`, and `jsonUnmarshal` the decoding of
the state file into a volume map; both are functions of their input alone. -/
structure StartupEnv where
  Lstat : List StartupEvent → String → FileStat
  urlHostname : String → Except String String
  ServicStatus : List StartupEvent → String → ServiceReply
  UpdateService : List StartupEvent → String → Bool → Reply freenas.Service
  GetISCSIPortalList : List StartupEvent → Reply (List freenas.ISCSIPortal)
  CreateISCSIPortal : List StartupEvent → List String → Reply freenas.ISCSIPortal
  ReadFile : List StartupEvent → String → FileData
  jsonUnmarshal : String → Except String Registry
  filepathJoin : String → String → String

/-- The end of the startup: the constructor returns a driver or an error, or the process
exits inside it. Both carry the trace of the calls made. -/
inductive StartupResult where
  | returned (val : Except String FreeNASISCSIDriver) (trace : List StartupEvent)
  | exited (trace : List StartupEvent)

/-- The calls made by the startup. -/
def StartupResult.trace : StartupResult → List StartupEvent
  | .returned _ tr => tr
  | .exited tr => tr

/-- The loop over `portals` in `newFreeNASISCSIDriver`: the values of `allowAny` and of
`d.freenasPortal` after it. -/
def findAnyPortal : List freenas.ISCSIPortal → Bool × Int
  | [] => (false, 0)
  | p :: rest =>
    if p.IPs.any (fun ip => ip == "0.0.0.0:3260") then (true, p.ID) else findAnyPortal rest

/-- The unexported field `connections` is not part of the state file: every decoded
record has the zero value in it. -/
def resetConnections (m : Registry) : Registry :=
  m.map (fun kv => (kv.1, { kv.2 with connections := 0 }))

/-- The constructor `newFreeNASISCSIDriver`. -/
def newFreeNASISCSIDriver (env : StartupEnv) (root furl username password : String) :
    StartupResult :=
  let fi := env.Lstat [] root
  let t1 : List StartupEvent := [⟨.Lstat root, fi.status⟩]
  match fi with
  | .notExist => .returned (.error (root ++ " is not exist")) t1
  | .failed msg => .returned (.error msg) t1
  | .info false => .returned (.error (root ++ " already exist and it's not a directory")) t1
  | .info true =>
    match env.urlHostname furl with
    | .error msg => .returned (.error msg) t1
    | .ok hostname =>
      let srv := env.ServicStatus t1 "iscsitarget"
      let t2 := t1 ++ [⟨.ServicStatus "iscsitarget", srv.status⟩]
      match srv with
      | .fatal => .exited t2
      | .ret iscsiSrv _ =>
        let enabled : Status × List StartupEvent :=
          if iscsiSrv.Status = false then
            let upd := env.UpdateService t2 "iscsitarget" true
            (upd.status, t2 ++ [⟨.UpdateService "iscsitarget" true, upd.status⟩])
          else (.ok, t2)
        match enabled with
        | (.fatal, t3) => .exited t3
        | (.error msg, t3) => .returned (.error msg) t3
        | (.ok, t3) =>
          let listed := env.GetISCSIPortalList t3
          let t4 := t3 ++ [⟨.GetISCSIPortalList, listed.status⟩]
          match listed with
          | .fatal => .exited t4
          | .error msg => .returned (.error msg) t4
          | .ok portals =>
            let found := findAnyPortal portals
            let created : Reply Int × List StartupEvent :=
              if found.1 = false then
                let p := env.CreateISCSIPortal t4 ["0.0.0.0:3260"]
                (match p with
                  | .ok portal => .ok portal.ID
                  | .error msg => .error msg
                  | .fatal => .fatal,
                 t4 ++ [⟨.CreateISCSIPortal ["0.0.0.0:3260"], p.status⟩])
              else (.ok found.2, t4)
            match created with
            | (.fatal, t5) => .exited t5
            | (.error msg, t5) => .returned (.error msg) t5
            | (.ok freenasPortal, t5) =>
              let d : FreeNASISCSIDriver :=
                { root := env.filepathJoin root "volumes",
                  statePath := env.filepathJoin root "freenas-state.json",
                  url := furl, hostname := hostname, username := username,
                  password := password, volumes := [], freenasPortal := freenasPortal }
              let file := env.ReadFile t5 d.statePath
              let t6 := t5 ++ [⟨.ReadFile d.statePath, file.status⟩]
              match file with
              | .notExist => .returned (.ok d) t6
              | .failed msg => .returned (.error msg) t6
              | .data bytes =>
                match env.jsonUnmarshal bytes with
                | .error msg => .returned (.error msg) t6
                | .ok volumes =>
                  .returned (.ok { d with volumes := resetConnections volumes }) t6

/-- A startup environment in which every call succeeds: an existing root directory, the
iSCSI service enabled, the given portals, a created portal with id `7`, no state file. -/
def StartupEnv.demo (portals : List freenas.ISCSIPortal) : StartupEnv where
  Lstat := fun _ _ => .info true
  urlHostname := fun _ => .ok "nas"
  ServicStatus := fun _ name => .ret { Name := name, Status := true, ID := 3 } none
  UpdateService := fun _ name enable => .ok { Name := name, Status := enable, ID := 3 }
  GetISCSIPortalList := fun _ => .ok portals
  CreateISCSIPortal := fun _ ips => .ok { ID := 7, IPs := ips }
  ReadFile := fun _ _ => .notExist
  jsonUnmarshal := fun _ => .ok []
  filepathJoin := fun dir name => dir ++ "/" ++ name

/-- Three portals; the second and the third list the wildcard address. -/
def demoPortals : List freenas.ISCSIPortal :=
  [{ ID := 1, IPs := ["10.0.0.1:3260"] },
   { ID := 2, IPs := ["10.0.0.2:3260", "0.0.0.0:3260"] },
   { ID := 3, IPs := ["0.0.0.0:3260"] }]

/-! ## Theorems -/

@[simp] theorem State.log_trace (s : State) (c : Call) (st : Status) :
    (s.log c st).trace = s.trace ++ [⟨c, st⟩] := rfl

@[simp] theorem State.log_driver (s : State) (c : Call) (st : Status) :
    (s.log c st).driver = s.driver := rfl

@[simp] theorem State.setVolumes_trace (s : State) (m : Registry) :
    (s.setVolumes m).trace = s.trace := rfl

@[simp] theorem State.setVolumes_volumes (s : State) (m : Registry) :
    (s.setVolumes m).driver.volumes = m := rfl

/-- A name just written is read back. -/
theorem Registry.get_set_self (m : Registry) (name : String) (v : FreeNASISCSIVolume) :
    Registry.get (Registry.set m name v) name = some v := by
  induction m with
  | nil => simp [Registry.set, Registry.get]
  | cons kv rest ih =>
    obtain ⟨k, w⟩ := kv
    by_cases hk : k = name
    · simp [Registry.set, Registry.get, hk]
    · simp [Registry.set, Registry.get, hk, ih]

/-- Writing one name leaves every other name as it was. -/
theorem Registry.get_set_of_ne (m : Registry) (name other : String) (v : FreeNASISCSIVolume)
    (h : other ≠ name) : Registry.get (Registry.set m name v) other = Registry.get m other := by
  induction m with
  | nil => simp [Registry.set, Registry.get, Ne.symm h]
  | cons kv rest ih =>
    obtain ⟨k, w⟩ := kv
    by_cases hk : k = name
    · subst hk
      simp [Registry.set, Registry.get, Ne.symm h]
    · by_cases hk2 : k = other
      · subst hk2
        simp [Registry.set, Registry.get, hk]
      · simp [Registry.set, Registry.get, hk, hk2, ih]

/-- The deletion skips the records stored under the deleted name. -/
theorem Registry.delete_cons (k : String) (w : FreeNASISCSIVolume) (rest : Registry)
    (name : String) :
    Registry.delete ((k, w) :: rest) name =
      if k = name then Registry.delete rest name else (k, w) :: Registry.delete rest name := by
  by_cases hk : k = name <;> simp [Registry.delete, List.filter_cons, hk]

/-- A deleted name is absent. -/
theorem Registry.get_delete_self (m : Registry) (name : String) :
    Registry.get (Registry.delete m name) name = none := by
  induction m with
  | nil => simp [Registry.delete, Registry.get]
  | cons kv rest ih =>
    obtain ⟨k, w⟩ := kv
    by_cases hk : k = name
    · simp [Registry.delete_cons, hk, ih]
    · simp [Registry.delete_cons, hk, Registry.get, ih]

/-- Deleting one name leaves every other name as it was. -/
theorem Registry.get_delete_of_ne (m : Registry) (name other : String) (h : other ≠ name) :
    Registry.get (Registry.delete m name) other = Registry.get m other := by
  induction m with
  | nil => simp [Registry.delete, Registry.get]
  | cons kv rest ih =>
    obtain ⟨k, w⟩ := kv
    by_cases hk : k = name
    · subst hk
      simp [Registry.delete_cons, Registry.get, Ne.symm h, ih]
    · by_cases hk2 : k = other
      · subst hk2
        simp [Registry.delete_cons, hk, Registry.get]
      · simp [Registry.delete_cons, hk, Registry.get, hk2, ih]

/-- C1 (failing input): an `Unmount` of a volume whose count is `0`, with a failing `umount`
command, returns the error and leaves the count at `-1`; the next `Mount` then finds a
non-zero count, makes no call and returns the mountpoint. -/
theorem Unmount_failure_leaves_negative_count :
    ∃ msg s', FreeNASISCSIDriver.Unmount Env.shFails (demoState [("v1", demoVolume)]) "v1" =
        .returned (some msg) s' ∧ s'.connections "v1" = some (-1) ∧
      ∃ s'', FreeNASISCSIDriver.Mount Env.shFails s' "v1" =
          .returned (.ok "/mnt/freenas/volumes/v1") s'' ∧
        s''.trace = s'.trace ∧ s''.connections "v1" = some 0 := by
  refine ⟨"exit status 32", _, rfl, ?_, _, rfl, ?_, ?_⟩ <;> decide

set_option maxHeartbeats 2000000 in
/-- What every run of `Create` satisfies: it issues no delete call, and a provisioning call
that returned an error ends the run with that error and the registry untouched. -/
theorem Create_aux (env : Env) (s : State) (r : CreateRequest) :
    (∀ e ∈ (FreeNASISCSIDriver.Create env s r).newEvents s, e.call.isDelete = false) ∧
    (∀ ev ∈ (FreeNASISCSIDriver.Create env s r).newEvents s, ev.call.isProvision = true →
      ∀ msg, ev.status = .error msg →
      ∃ s', FreeNASISCSIDriver.Create env s r = .returned (some msg) s' ∧
        s'.driver.volumes = s.driver.volumes) := by
  unfold FreeNASISCSIDriver.Create
  simp only [Result.newEvents]
  by_cases hsize : FreeNASISCSIDriver.sizeOption r.Options = 0
  · simp [hsize, Result.state]
  · simp only [hsize, if_false]
    generalize env.GetVolumeList s.trace = vols
    cases vols <;> simp only [Reply.status]
    all_goals try (simp [Result.state, Call.isDelete, Call.isProvision]; done)
    all_goals split_ifs
    all_goals try (simp [Result.state, Call.isDelete, Call.isProvision]; done)
    all_goals generalize env.CreateZFSVolume _ _ _ _ = zvol
    all_goals cases zvol <;> simp only [Reply.status]
    all_goals try (simp [Result.state, Call.isDelete, Call.isProvision]; done)
    all_goals generalize env.CreateISCSITarget _ _ = target
    all_goals cases target <;> simp only [Reply.status]
    all_goals try (simp [Result.state, Call.isDelete, Call.isProvision]; done)
    all_goals generalize env.CreateISCSITargetGroup _ _ _ = tgroup
    all_goals cases tgroup <;> simp only [Reply.status]
    all_goals try (simp [Result.state, Call.isDelete, Call.isProvision]; done)
    all_goals generalize env.CreateISCSIExtent _ _ _ _ = extent
    all_goals cases extent <;> simp only [Reply.status]
    all_goals try (simp [Result.state, Call.isDelete, Call.isProvision]; done)
    all_goals generalize env.CreateISCSITargetToExtent _ _ _ = tte
    all_goals cases tte <;> simp only [Reply.status]
    all_goals try (simp [Result.state, Call.isDelete, Call.isProvision]; done)
    all_goals simp [Result.state, Call.isDelete, Call.isProvision, FreeNASISCSIDriver.saveState]

/-- C2: a provisioning step of `Create` that returns an error makes `Create` return that
error, with the registry as it was and no delete call issued. -/
theorem Create_provisioning_error_keeps_registry (env : Env) (s : State) (r : CreateRequest)
    (ev : Event) (msg : String)
    (hev : ev ∈ (FreeNASISCSIDriver.Create env s r).newEvents s)
    (hprov : ev.call.isProvision = true) (herr : ev.status = .error msg) :
    ∃ s', FreeNASISCSIDriver.Create env s r = .returned (some msg) s' ∧
      s'.driver.volumes = s.driver.volumes ∧
      ∀ e ∈ (FreeNASISCSIDriver.Create env s r).newEvents s, e.call.isDelete = false := by
  obtain ⟨s', h1, h2⟩ := (Create_aux env s r).2 ev hev hprov msg herr
  exact ⟨s', h1, h2, (Create_aux env s r).1⟩

/-- Inside the 64-bit range the machine arithmetic changes nothing. -/
theorem wrapInt64_of_range (x : Int) (hlo : -(2 ^ 63) ≤ x) (hhi : x < 2 ^ 63) :
    wrapInt64 x = x := by
  unfold wrapInt64
  norm_num at hlo hhi ⊢
  omega

/-- Writing the same name twice keeps the second record. -/
theorem Registry.set_set (m : Registry) (name : String) (v w : FreeNASISCSIVolume) :
    Registry.set (Registry.set m name v) name w = Registry.set m name w := by
  induction m with
  | nil => simp [Registry.set]
  | cons kv rest ih =>
    obtain ⟨k, u⟩ := kv
    by_cases hk : k = name
    · simp [Registry.set, hk]
    · simp [Registry.set, hk, ih]

/-- What `Unmount` does on a record whose count `c` is a 64-bit value above `-2^63`, for
every answer of the environment. When `c - 1 > 0` no call is made and the count becomes
`c - 1`. When `c - 1 ≤ 0` the discovery and the `umount` command are issued; the logout
follows a successful `umount` and names the discovered IQN, or the empty target when the
discovery failed. A failed `umount` or logout is returned with the count at `c - 1`; when
both succeed the count becomes `0`. -/
theorem Unmount_behaviour (env : Env) (s : State) (name : String) (v : FreeNASISCSIVolume)
    (hget : Registry.get s.driver.volumes name = some v)
    (hlo : -(2 ^ 63) < v.connections) (hhi : v.connections < 2 ^ 63) :
    (0 < v.connections - 1 →
      FreeNASISCSIDriver.Unmount env s name = .returned none
        (s.setVolumes (Registry.set s.driver.volumes name
          { v with connections := v.connections - 1 }))) ∧
    (v.connections - 1 ≤ 0 →
      ∀ found um out,
        env.FindISCSIIQN s.trace s.driver.hostname v.Name = found →
        env.Sh (s.trace ++ [⟨.FindISCSIIQN s.driver.hostname v.Name, exceptStatus found⟩])
          ("umount " ++ v.Mountpoint) = um →
        env.LogoutISCSITarget
          (s.trace ++ [⟨.FindISCSIIQN s.driver.hostname v.Name, exceptStatus found⟩,
            ⟨.Sh ("umount " ++ v.Mountpoint), .ok⟩])
          (match found with
            | .ok iqn => iqn
            | .error _ => "") = out →
        FreeNASISCSIDriver.Unmount env s name =
          match um, out with
          | some msg, _ =>
            .returned (some msg)
              { s.setVolumes (Registry.set s.driver.volumes name
                  { v with connections := v.connections - 1 }) with
                trace := s.trace ++
                  [⟨.FindISCSIIQN s.driver.hostname v.Name, exceptStatus found⟩,
                   ⟨.Sh ("umount " ++ v.Mountpoint), .error msg⟩] }
          | none, some msg =>
            .returned (some msg)
              { s.setVolumes (Registry.set s.driver.volumes name
                  { v with connections := v.connections - 1 }) with
                trace := s.trace ++
                  [⟨.FindISCSIIQN s.driver.hostname v.Name, exceptStatus found⟩,
                   ⟨.Sh ("umount " ++ v.Mountpoint), .ok⟩,
                   ⟨.LogoutISCSITarget (match found with
                      | .ok iqn => iqn
                      | .error _ => ""), .error msg⟩] }
          | none, none =>
            .returned none
              { s.setVolumes (Registry.set s.driver.volumes name
                  { v with connections := 0 }) with
                trace := s.trace ++
                  [⟨.FindISCSIIQN s.driver.hostname v.Name, exceptStatus found⟩,
                   ⟨.Sh ("umount " ++ v.Mountpoint), .ok⟩,
                   ⟨.LogoutISCSITarget (match found with
                      | .ok iqn => iqn
                      | .error _ => ""), .ok⟩] }) := by
  have hw : wrapInt64 (v.connections - 1) = v.connections - 1 :=
    wrapInt64_of_range _ (by omega) (by omega)
  constructor
  · intro hpos
    have hnot : ¬ v.connections - 1 ≤ 0 := not_le.mpr hpos
    simp [FreeNASISCSIDriver.Unmount, hget, hw, hnot]
  · intro hle found um out hfound hum hout
    subst hfound
    simp only [FreeNASISCSIDriver.Unmount, hget, hw, hle, if_true,
      FreeNASISCSIDriver.unmountVolume, State.setVolumes_trace, State.log_trace,
      State.log_driver]
    have hhost : (s.setVolumes (Registry.set s.driver.volumes name
        { v with connections := v.connections - 1 })).driver.hostname = s.driver.hostname := rfl
    simp only [hhost, hum]
    cases um with
    | some msg => simp [errStatus, State.log, State.setVolumes]
    | none =>
      simp only [List.append_assoc, List.singleton_append] at hout ⊢
      simp only [errStatus, hout]
      cases out with
      | some msg => simp [errStatus, State.log, State.setVolumes]
      | none => simp [errStatus, State.log, State.setVolumes, Registry.set_set]

/-- After a failed discovery `unmountVolume` names the empty target in the only logout it
can issue, whatever the environment answers. -/
theorem unmountVolume_logout_after_failed_discovery (env : Env) (s : State)
    (v : FreeNASISCSIVolume) (msg : String)
    (h : env.FindISCSIIQN s.trace s.driver.hostname v.Name = .error msg) :
    ∀ e ∈ (FreeNASISCSIDriver.unmountVolume env s v).2.trace.drop s.trace.length,
      ∀ iqn, e.call = .LogoutISCSITarget iqn → iqn = "" := by
  simp only [FreeNASISCSIDriver.unmountVolume, h]
  cases env.Sh _ _ with
  | some err => simp
  | none =>
    simp only [State.log_trace, List.append_assoc, List.drop_left]
    intro e he iqn hcall
    simp only [List.singleton_append, List.mem_cons, List.mem_singleton, List.not_mem_nil,
      or_false] at he
    rcases he with rfl | rfl | rfl
    · cases hcall
    · cases hcall
    · cases hcall
      rfl

/-- C6 (failing input): an `Unmount` at count `1` while the discovery fails: the error of
the discovery is dropped, the filesystem is unmounted and the logout is issued for the
empty target; `Unmount` returns no error and the count becomes `0`, but the session of the
volume, `iqn.2005-10.org.freenas.ctl:docker-v1`, is never logged out. -/
theorem Unmount_failed_discovery_skips_logout :
    ∃ s', FreeNASISCSIDriver.Unmount Env.discoveryFails
        (demoState [("v1", { demoVolume with connections := 1 })]) "v1" = .returned none s' ∧
      s'.trace =
        [⟨.FindISCSIIQN "nas" "docker-v1", .error "exit status 4"⟩,
         ⟨.Sh "umount /mnt/freenas/volumes/v1", .ok⟩,
         ⟨.LogoutISCSITarget "", .ok⟩] ∧
      s'.connections "v1" = some 0 ∧
      Env.allOk.FindISCSIIQN [] "nas" "docker-v1" =
        .ok "iqn.2005-10.org.freenas.ctl:docker-v1" := by
  refine ⟨_, rfl, ?_, ?_, rfl⟩ <;> decide

/-- The loop over the options leaves the size at `0` when no key is `size`. -/
theorem sizeOption_of_no_size_key (options : List (String × String))
    (h : ∀ kv ∈ options, kv.1 ≠ "size") : FreeNASISCSIDriver.sizeOption options = 0 := by
  unfold FreeNASISCSIDriver.sizeOption
  induction options with
  | nil => rfl
  | cons kv rest ih =>
    have hkv : kv.1 ≠ "size" := h kv (List.mem_cons_self _ _)
    simp only [List.foldl_cons, hkv, if_false]
    exact ih (fun kv' hmem => h kv' (List.mem_cons_of_mem _ hmem))

/-- A size of `0` after the loop over the options (no `size` key, an unparsable value, or
the value `0`) makes `Create` return the invalid-size error without any call or change. -/
theorem Create_rejects_zero_size (env : Env) (s : State) (r : CreateRequest)
    (h : FreeNASISCSIDriver.sizeOption r.Options = 0) :
    FreeNASISCSIDriver.Create env s r = .returned (some "Invalid size value") s := by
  simp [FreeNASISCSIDriver.Create, h]

/-- C3 (failing input): `Create` with the option `size=-1` is not rejected: the size check
only refuses `0`, the capacity check passes against a negative bound, the zvol is requested
with size `-1` and the record is inserted with size `-1`. -/
theorem Create_accepts_negative_size :
    (strconvAtoi "-1").1 = -1 ∧
    ∃ s', FreeNASISCSIDriver.Create Env.allOk (demoState [])
        { Name := "neg", Options := [("size", "-1")] } = .returned none s' ∧
      (⟨.CreateZFSVolume "tank" "docker-neg" (-1), .ok⟩ : Event) ∈ s'.trace ∧
      (Registry.get s'.driver.volumes "neg").map (fun v => v.Size) = some (-1) := by
  refine ⟨by decide, _, rfl, ?_, ?_⟩ <;> decide

/-- C4 (failing input): with `size=17179869184` the product `1024*1024*1024*size` is `2^64`
and wraps to `0` in a 64-bit `int`; `Create` provisions the zvol and succeeds although the
only pool has 100 GiB. -/
theorem Create_capacity_check_wraps :
    Env.allOk.GetVolumeList [] = .ok demoPools ∧
    (∀ pool ∈ demoPools, pool.Avail < 17179869184 * 1024 ^ 3) ∧
    ∃ s', FreeNASISCSIDriver.Create Env.allOk (demoState [])
        { Name := "big", Options := [("size", "17179869184")] } = .returned none s' ∧
      (⟨.CreateZFSVolume "tank" "docker-big" 17179869184, .ok⟩ : Event) ∈ s'.trace ∧
      (Registry.get s'.driver.volumes "big").map (fun v => (v.Size, v.PoolName)) =
        some (17179869184, "tank") := by
  refine ⟨rfl, by decide, _, rfl, ?_, ?_⟩ <;> decide

/-- The wait for the device node does not touch the driver. -/
theorem waitForDisk_driver (env : Env) (diskpath : String) (n : Nat) (s : State) :
    (FreeNASISCSIDriver.waitForDisk env diskpath n s).driver = s.driver := by
  induction n generalizing s with
  | zero => rfl
  | succ n ih =>
    unfold FreeNASISCSIDriver.waitForDisk
    cases env.Stat s.trace diskpath <;> simp [ih]

/-- The method `mountVolume` does not touch the driver. -/
theorem mountVolume_driver (env : Env) (s : State) (v : FreeNASISCSIVolume) :
    (FreeNASISCSIDriver.mountVolume env s v).2.driver = s.driver := by
  unfold FreeNASISCSIDriver.mountVolume
  simp only []
  cases env.FindISCSIIQN s.trace s.driver.hostname v.Name with
  | error msg => rfl
  | ok iqn =>
    simp only []
    generalize env.GetISCSIDiskPath _ _ _ = resolved
    cases resolved with
    | error msg => rfl
    | ok diskpath =>
      simp only []
      split_ifs
      · generalize env.FormatXFS _ _ = err
        cases err <;> simp [waitForDisk_driver]
      · simp [waitForDisk_driver]

/-- Whenever `Mount` returns an error, the driver, and with it every connection count, is
as it was before the call. -/
theorem Mount_error_keeps_registry (env : Env) (s s' : State) (name msg : String)
    (h : FreeNASISCSIDriver.Mount env s name = .returned (.error msg) s') :
    s'.driver = s.driver := by
  unfold FreeNASISCSIDriver.Mount at h
  cases hget : Registry.get s.driver.volumes name with
  | none => simp [hget] at h
  | some v =>
    simp only [hget] at h
    by_cases hzero : v.connections = 0
    · simp only [hzero, if_true] at h
      cases hfi : env.Lstat s.trace v.Mountpoint with
      | failed m => simp [hfi] at h
      | notExist =>
        simp only [hfi] at h
        cases hmk : env.MkdirAll (s.trace ++ [⟨.Lstat v.Mountpoint, FileStat.notExist.status⟩])
            v.Mountpoint with
        | some m => simp [hmk] at h
        | none =>
          simp only [State.log_trace, hmk] at h
          have hd := mountVolume_driver env
            ((s.log (.Lstat v.Mountpoint) FileStat.notExist.status).log
              (.MkdirAll v.Mountpoint) (errStatus none)) v
          revert h hd
          generalize FreeNASISCSIDriver.mountVolume env _ v = res
          obtain ⟨err, s2⟩ := res
          cases err <;> simp
          intro _ hs hd
          rw [← hs, hd]
      | info isDir =>
        cases isDir with
        | false => simp [hfi] at h
        | true =>
          simp only [hfi] at h
          have hd := mountVolume_driver env
            (s.log (.Lstat v.Mountpoint) (FileStat.info true).status) v
          revert h hd
          generalize FreeNASISCSIDriver.mountVolume env _ v = res
          obtain ⟨err, s2⟩ := res
          cases err <;> simp
          intro _ hs hd
          rw [← hs, hd]
    · simp [hzero] at h

/-- C5 (failing input): when the iSCSI login fails and every later step succeeds, `Mount`
returns the mountpoint and the count becomes `1`; when the mountpoint cannot be created,
the process exits inside `Mount` and nothing is returned. -/
theorem Mount_first_mount_failures :
    (∃ s', FreeNASISCSIDriver.Mount Env.loginFails (demoState [("v1", demoVolume)]) "v1" =
        .returned (.ok "/mnt/freenas/volumes/v1") s' ∧
      (⟨.LoginISCSITarget "iqn.2005-10.org.freenas.ctl:docker-v1", .error "exit status 8"⟩ :
        Event) ∈ s'.trace ∧
      s'.connections "v1" = some 1) ∧
    (∃ s', FreeNASISCSIDriver.Mount Env.mkdirFails (demoState [("v1", demoVolume)]) "v1" =
        .exited s' ∧
      (⟨.MkdirAll "/mnt/freenas/volumes/v1", .error "permission denied"⟩ : Event) ∈ s'.trace) := by
  refine ⟨⟨_, rfl, ?_, ?_⟩, ⟨_, rfl, ?_⟩⟩ <;> decide

/-- C7: `Mount` on a record whose count is positive (and below the largest 64-bit value,
so that the increment does not wrap) makes no call, returns the stored mountpoint, adds one
to the count of that record and changes nothing else. -/
theorem Mount_already_mounted (env : Env) (s : State) (name : String) (v : FreeNASISCSIVolume)
    (hget : Registry.get s.driver.volumes name = some v) (hpos : 0 < v.connections)
    (hmax : v.connections < 2 ^ 63 - 1) :
    ∃ s', FreeNASISCSIDriver.Mount env s name = .returned (.ok v.Mountpoint) s' ∧
      s'.trace = s.trace ∧
      Registry.get s'.driver.volumes name =
        some { v with connections := v.connections + 1 } ∧
      (∀ other, other ≠ name →
        Registry.get s'.driver.volumes other = Registry.get s.driver.volumes other) ∧
      { s'.driver with volumes := s.driver.volumes } = s.driver := by
  have hne : ¬ v.connections = 0 := ne_of_gt hpos
  have hw : wrapInt64 (v.connections + 1) = v.connections + 1 :=
    wrapInt64_of_range _ (by omega) (by omega)
  refine ⟨s.setVolumes (Registry.set s.driver.volumes name
    { v with connections := v.connections + 1 }), ?_, rfl, ?_, ?_, rfl⟩
  · simp only [FreeNASISCSIDriver.Mount, hget, hne, if_false, hw]
  · simp [Registry.get_set_self]
  · intro other hother
    simp [Registry.get_set_of_ne _ _ _ _ hother]

/-- At the largest 64-bit count the increment of `Mount` wraps to the smallest one. -/
theorem Mount_counter_wraps :
    ∃ s', FreeNASISCSIDriver.Mount Env.allOk
        (demoState [("v1", { demoVolume with connections := 9223372036854775807 })]) "v1" =
        .returned (.ok "/mnt/freenas/volumes/v1") s' ∧
      s'.connections "v1" = some (-9223372036854775808) := by
  refine ⟨_, rfl, ?_⟩
  decide

/-- C8: `Remove` of a record whose count is not `0` returns the busy error and leaves the
registry and the trace as they were: no teardown call is made. -/
theorem Remove_busy (env : Env) (s : State) (name : String) (v : FreeNASISCSIVolume)
    (hget : Registry.get s.driver.volumes name = some v) (hbusy : v.connections ≠ 0) :
    FreeNASISCSIDriver.Remove env s name =
      .returned (some ("volume " ++ name ++ " is currently used by a container")) s := by
  simp [FreeNASISCSIDriver.Remove, hget, hbusy]

/-- When each delete call returns (with or without an error), `Remove` of a record whose
count is `0` issues the five delete calls in the order link, extent, target group,
target, zvol with the recorded identifiers, then writes the state file; afterwards the name
is absent and every other record is as before. -/
theorem Remove_tears_down_in_order (env : Env) (s : State) (name : String)
    (v : FreeNASISCSIVolume)
    (hget : Registry.get s.driver.volumes name = some v) (hzero : v.connections = 0)
    (h1 : ∀ tr id, env.DeleteISCSITargetToExtent tr id ≠ .fatal)
    (h2 : ∀ tr id, env.DeleteISCSIExtent tr id ≠ .fatal)
    (h3 : ∀ tr id, env.DeleteISCSITargetGroup tr id ≠ .fatal)
    (h4 : ∀ tr id, env.DeleteISCSITarget tr id ≠ .fatal)
    (h5 : ∀ tr pool zvol, env.DeleteZFSVolume tr pool zvol ≠ .fatal) :
    ∃ s', FreeNASISCSIDriver.Remove env s name = .returned none s' ∧
      (s'.trace.drop s.trace.length).map Event.call =
        [.DeleteISCSITargetToExtent v.TargetToExtentID,
         .DeleteISCSIExtent v.ExtentID,
         .DeleteISCSITargetGroup v.TargetGroupID,
         .DeleteISCSITarget v.TargetID,
         .DeleteZFSVolume v.PoolName v.Name,
         .WriteFile s.driver.statePath] ∧
      Registry.get s'.driver.volumes name = none ∧
      ∀ other, other ≠ name →
        Registry.get s'.driver.volumes other = Registry.get s.driver.volumes other := by
  refine ⟨(FreeNASISCSIDriver.Remove env s name).state, ?_⟩
  simp only [FreeNASISCSIDriver.Remove, hget, hzero, ne_eq, not_true_eq_false, if_false]
  rcases hr1 : env.DeleteISCSITargetToExtent s.trace v.TargetToExtentID with _ | _ | _
  all_goals first | exact absurd hr1 (h1 _ _) | skip
  all_goals simp only [Reply.status]
  all_goals generalize hr2 : env.DeleteISCSIExtent _ _ = r2
  all_goals rcases r2 with _ | _ | _
  all_goals first | exact absurd hr2 (h2 _ _) | skip
  all_goals simp only [Reply.status]
  all_goals generalize hr3 : env.DeleteISCSITargetGroup _ _ = r3
  all_goals rcases r3 with _ | _ | _
  all_goals first | exact absurd hr3 (h3 _ _) | skip
  all_goals simp only [Reply.status]
  all_goals generalize hr4 : env.DeleteISCSITarget _ _ = r4
  all_goals rcases r4 with _ | _ | _
  all_goals first | exact absurd hr4 (h4 _ _) | skip
  all_goals simp only [Reply.status]
  all_goals generalize hr5 : env.DeleteZFSVolume _ _ _ = r5
  all_goals rcases r5 with _ | _ | _
  all_goals first | exact absurd hr5 (h5 _ _ _) | skip
  all_goals simp only [Reply.status, Result.state]
  all_goals
    refine ⟨trivial, ?_, ?_, ?_⟩
  all_goals first
    | (simp [FreeNASISCSIDriver.saveState, State.setVolumes, State.log]; done)
    | (simp [FreeNASISCSIDriver.saveState, Registry.get_delete_self]; done)
    | (intro other hother
       simp [FreeNASISCSIDriver.saveState, Registry.get_delete_of_ne _ _ _ hother])

/-- C9 (failing input): the request that deletes the extent cannot be sent, so the REST
client ends the process inside the second teardown call: the target group, the target and
the zvol are never deleted, and the record is still in the registry. -/
theorem Remove_transport_failure_aborts_teardown :
    ∃ s', FreeNASISCSIDriver.Remove Env.extentFatal (demoState [("v1", demoVolume)]) "v1" =
        .exited s' ∧
      s'.trace = [⟨.DeleteISCSITargetToExtent 14, .ok⟩, ⟨.DeleteISCSIExtent 13, .fatal⟩] ∧
      Registry.get s'.driver.volumes "v1" = some demoVolume := by
  refine ⟨_, rfl, ?_, ?_⟩ <;> decide

/-- On a name that is not in the registry, `Get`, `Path`, `Unmount` and `Remove` return the
not-found error, make no call and change nothing. -/
theorem unknown_volume_not_found (env : Env) (s : State) (name : String)
    (h : Registry.get s.driver.volumes name = none) :
    FreeNASISCSIDriver.Get s name = .returned (.error "volume not found") s ∧
    FreeNASISCSIDriver.Path s name = .returned (.error "volume not found") s ∧
    FreeNASISCSIDriver.Unmount env s name = .returned (some "volume not found") s ∧
    FreeNASISCSIDriver.Remove env s name = .returned (some "Volume not found") s := by
  simp [FreeNASISCSIDriver.Get, FreeNASISCSIDriver.Path, FreeNASISCSIDriver.Unmount,
    FreeNASISCSIDriver.Remove, h]

/-- On a name that is not in the registry, the process exits inside `Mount`. -/
theorem Mount_of_unknown_volume (env : Env) (s : State) (name : String)
    (h : Registry.get s.driver.volumes name = none) :
    FreeNASISCSIDriver.Mount env s name = .exited s := by
  simp [FreeNASISCSIDriver.Mount, h]

/-- C10 (failing input): `Mount` of the unknown name `ghost` does not return: `log.Fatal`
ends the process. -/
theorem Mount_unknown_volume_exits :
    Registry.get (demoState [("v1", demoVolume)]).driver.volumes "ghost" = none ∧
    FreeNASISCSIDriver.Mount Env.allOk (demoState [("v1", demoVolume)]) "ghost" =
      .exited (demoState [("v1", demoVolume)]) :=
  ⟨by decide, rfl⟩

/-- The loop that keeps the pool with the most available bytes, started from any pool
`acc`: either it keeps `acc`, and no entry has more available bytes than `acc`, or it ends
on the first entry with the greatest available bytes, which exceed those of `acc`. -/
theorem maxAvail_foldl (l : List freenas.Volume) (acc : freenas.Volume) :
    (l.foldl (fun volume vol => if vol.Avail > volume.Avail then vol else volume) acc = acc ∧
      ∀ q ∈ l, q.Avail ≤ acc.Avail) ∨
    (∃ before after,
      l = before ++
        l.foldl (fun volume vol => if vol.Avail > volume.Avail then vol else volume) acc ::
          after ∧
      acc.Avail <
        (l.foldl (fun volume vol => if vol.Avail > volume.Avail then vol else volume) acc).Avail ∧
      (∀ q ∈ before, q.Avail <
        (l.foldl (fun volume vol => if vol.Avail > volume.Avail then vol else volume)
          acc).Avail) ∧
      (∀ q ∈ after, q.Avail ≤
        (l.foldl (fun volume vol => if vol.Avail > volume.Avail then vol else volume)
          acc).Avail)) := by
  induction l generalizing acc with
  | nil => left; simp
  | cons x xs ih =>
    simp only [List.foldl_cons]
    by_cases hx : x.Avail > acc.Avail
    · simp only [hx, if_true]
      rcases ih x with ⟨hres, hall⟩ | ⟨before, after, hsplit, hlt, hb, ha⟩
      · right
        refine ⟨[], xs, ?_, ?_, ?_, ?_⟩
        · simp [hres]
        · rw [hres]; exact hx
        · simp
        · rw [hres]; exact hall
      · right
        refine ⟨x :: before, after, ?_, ?_, ?_, ha⟩
        · rw [List.cons_append, ← hsplit]
        · exact lt_trans hx hlt
        · intro q hq
          rcases List.mem_cons.mp hq with rfl | hq
          · exact hlt
          · exact hb q hq
    · simp only [hx, if_false]
      have hle : x.Avail ≤ acc.Avail := not_lt.mp hx
      rcases ih acc with ⟨hres, hall⟩ | ⟨before, after, hsplit, hlt, hb, ha⟩
      · left
        refine ⟨hres, ?_⟩
        intro q hq
        rcases List.mem_cons.mp hq with rfl | hq
        · exact hle
        · exact hall q hq
      · right
        refine ⟨x :: before, after, ?_, hlt, ?_, ha⟩
        · rw [List.cons_append, ← hsplit]
        · intro q hq
          rcases List.mem_cons.mp hq with rfl | hq
          · exact lt_of_le_of_lt hle hlt
          · exact hb q hq

/-- When some pool has available bytes, the loop of `Create` ends on the first pool with
the greatest available bytes. -/
theorem maxAvailVolume_first_largest (pools : List freenas.Volume)
    (h : ∃ p ∈ pools, 0 < p.Avail) :
    ∃ before after, pools = before ++ FreeNASISCSIDriver.maxAvailVolume pools :: after ∧
      (∀ q ∈ before, q.Avail < (FreeNASISCSIDriver.maxAvailVolume pools).Avail) ∧
      (∀ q ∈ after, q.Avail ≤ (FreeNASISCSIDriver.maxAvailVolume pools).Avail) := by
  obtain ⟨p, hp, hpos⟩ := h
  rcases maxAvail_foldl pools freenas.Volume.zero with ⟨-, hall⟩ | ⟨before, after, hs, -, hb, ha⟩
  · have hle := hall p hp
    have hz : freenas.Volume.zero.Avail = 0 := rfl
    rw [hz] at hle
    omega
  · exact ⟨before, after, hs, hb, ha⟩

/-- When no pool has available bytes, the loop of `Create` keeps the zero value. -/
theorem maxAvailVolume_none (pools : List freenas.Volume) (h : ∀ p ∈ pools, p.Avail ≤ 0) :
    FreeNASISCSIDriver.maxAvailVolume pools = freenas.Volume.zero := by
  rcases maxAvail_foldl pools freenas.Volume.zero with ⟨hres, -⟩ | ⟨before, after, hs, hlt, -, -⟩
  · exact hres
  · have hmem : List.foldl (fun volume vol => if vol.Avail > volume.Avail then vol else volume)
        freenas.Volume.zero pools ∈ before ++
          List.foldl (fun volume vol => if vol.Avail > volume.Avail then vol else volume)
            freenas.Volume.zero pools :: after := by simp
    rw [← hs] at hmem
    have hle := h _ hmem
    have hz : freenas.Volume.zero.Avail = 0 := rfl
    rw [hz] at hlt
    omega

/-- A capacity bound below `2^63` is not changed by the 64-bit arithmetic. -/
theorem wrapInt64_capacity (size : Int) (hpos : 0 < size) (hlt : size < 2 ^ 33) :
    wrapInt64 (1024 * 1024 * 1024 * size) = 1024 * 1024 * 1024 * size := by
  unfold wrapInt64
  norm_num at hlt ⊢
  omega

set_option maxHeartbeats 1000000 in
/-- When `Create` succeeds, the pool name it records is the name of the pool its loop
ended on. -/
theorem Create_records_selected_pool (env : Env) (s s' : State) (r : CreateRequest)
    (pools : List freenas.Volume) (hpools : env.GetVolumeList s.trace = .ok pools) :
    FreeNASISCSIDriver.Create env s r = .returned none s' →
      (Registry.get s'.driver.volumes r.Name).map (fun v => v.PoolName) =
        some (FreeNASISCSIDriver.maxAvailVolume pools).Name := by
  unfold FreeNASISCSIDriver.Create
  by_cases hsize : FreeNASISCSIDriver.sizeOption r.Options = 0
  · simp [hsize]
  · simp only [hsize, if_false, hpools, Reply.status]
    split_ifs
    · simp
    · generalize env.CreateZFSVolume _ _ _ _ = zvol
      cases zvol <;> simp only [Reply.status]
      all_goals try (simp; done)
      generalize env.CreateISCSITarget _ _ = target
      cases target <;> simp only [Reply.status]
      all_goals try (simp; done)
      generalize env.CreateISCSITargetGroup _ _ _ = tgroup
      cases tgroup <;> simp only [Reply.status]
      all_goals try (simp; done)
      generalize env.CreateISCSIExtent _ _ _ _ = extent
      cases extent <;> simp only [Reply.status]
      all_goals try (simp; done)
      generalize env.CreateISCSITargetToExtent _ _ _ = tte
      cases tte <;> simp only [Reply.status]
      all_goals try (simp; done)
      intro h
      have hs : s' = _ := (Result.returned.inj h).2.symm
      subst hs
      simp [FreeNASISCSIDriver.saveState, Registry.get_set_self]

/-- When no pool has available bytes and the size is positive and below `2^33`, `Create`
fails with the insufficient-size error after the pool query, with the driver unchanged. -/
theorem Create_insufficient_without_pool (env : Env) (s : State) (r : CreateRequest)
    (pools : List freenas.Volume) (hpools : env.GetVolumeList s.trace = .ok pools)
    (hpos : 0 < FreeNASISCSIDriver.sizeOption r.Options)
    (hlt : FreeNASISCSIDriver.sizeOption r.Options < 2 ^ 33)
    (hnone : ∀ p ∈ pools, p.Avail ≤ 0) :
    FreeNASISCSIDriver.Create env s r =
      .returned (some "Insufficient volume size") (s.log .GetVolumeList .ok) := by
  have hsize : ¬ FreeNASISCSIDriver.sizeOption r.Options = 0 := ne_of_gt hpos
  have hcheck : (FreeNASISCSIDriver.maxAvailVolume pools).Avail <
      wrapInt64 (1024 * 1024 * 1024 * FreeNASISCSIDriver.sizeOption r.Options) := by
    rw [maxAvailVolume_none pools hnone, wrapInt64_capacity _ hpos hlt]
    have hz : freenas.Volume.zero.Avail = 0 := rfl
    rw [hz]
    omega
  unfold FreeNASISCSIDriver.Create
  simp only [hsize, if_false, hpools, Reply.status, hcheck, if_true]

/-- The example of the specification: among `(A,10)`, `(B,30)`, `(C,20)` the loop of
`Create` ends on `B`; among equal pools it ends on the first. -/
theorem maxAvailVolume_examples :
    (FreeNASISCSIDriver.maxAvailVolume
      [demoPool "A" 10, demoPool "B" 30, demoPool "C" 20]).Name = "B" ∧
    (FreeNASISCSIDriver.maxAvailVolume
      [demoPool "A" 30, demoPool "B" 30, demoPool "C" 20]).Name = "A" ∧
    FreeNASISCSIDriver.maxAvailVolume [] = freenas.Volume.zero := by
  refine ⟨?_, ?_, rfl⟩ <;> decide

/-- C11 (failing input): when the appliance reports no pool and the request has
`size=17179869184`, no pool is selected, yet the capacity check passes (the bound wraps to
`0`): `Create` requests the zvol in the pool with the empty name, succeeds and records the
empty pool name. -/
theorem Create_without_pool_succeeds :
    (Env.withPools []).GetVolumeList [] = .ok [] ∧
    ∃ s', FreeNASISCSIDriver.Create (Env.withPools []) (demoState [])
        { Name := "big", Options := [("size", "17179869184")] } = .returned none s' ∧
      (⟨.CreateZFSVolume "" "docker-big" 17179869184, .ok⟩ : Event) ∈ s'.trace ∧
      (Registry.get s'.driver.volumes "big").map (fun v => v.PoolName) = some "" := by
  refine ⟨rfl, _, rfl, ?_, ?_⟩ <;> decide

/-- The portal loop stops at the first portal that lists the wildcard address. -/
theorem findAnyPortal_first (before after : List freenas.ISCSIPortal) (p : freenas.ISCSIPortal)
    (hp : "0.0.0.0:3260" ∈ p.IPs) (hb : ∀ q ∈ before, "0.0.0.0:3260" ∉ q.IPs) :
    findAnyPortal (before ++ p :: after) = (true, p.ID) := by
  induction before with
  | nil =>
    have hany : (p.IPs.any fun ip => ip == "0.0.0.0:3260") = true := by
      simp only [List.any_eq_true, beq_iff_eq]
      exact ⟨_, hp, rfl⟩
    simp [findAnyPortal, hany]
  | cons q rest ih =>
    have hq : "0.0.0.0:3260" ∉ q.IPs := hb q (List.mem_cons_self _ _)
    have hany : (q.IPs.any fun ip => ip == "0.0.0.0:3260") = false := by
      rw [Bool.eq_false_iff]
      simp only [ne_eq, List.any_eq_true, beq_iff_eq, not_exists, not_and]
      intro ip hip heq
      exact hq (heq ▸ hip)
    simp only [List.cons_append, findAnyPortal, hany]
    exact ih (fun q' hq' => hb q' (List.mem_cons_of_mem _ hq'))

/-- The portal loop finds nothing when no portal lists the wildcard address. -/
theorem findAnyPortal_none (portals : List freenas.ISCSIPortal)
    (h : ∀ q ∈ portals, "0.0.0.0:3260" ∉ q.IPs) : findAnyPortal portals = (false, 0) := by
  induction portals with
  | nil => rfl
  | cons q rest ih =>
    have hq : "0.0.0.0:3260" ∉ q.IPs := h q (List.mem_cons_self _ _)
    have hany : (q.IPs.any fun ip => ip == "0.0.0.0:3260") = false := by
      rw [Bool.eq_false_iff]
      simp only [ne_eq, List.any_eq_true, beq_iff_eq, not_exists, not_and]
      intro ip hip heq
      exact hq (heq ▸ hip)
    simp only [findAnyPortal, hany]
    exact ih (fun q' hq' => h q' (List.mem_cons_of_mem _ hq'))

set_option maxHeartbeats 4000000 in
/-- A startup that obtains the portal list and finds a portal listing `0.0.0.0:3260`
issues no create-portal call; its last call reads the state file, and it returns the
driver with the id of the first such portal when the file does not exist or decodes, and
the error of the read or of the decoding otherwise. -/
theorem startup_reuses_portal (env : StartupEnv)
    (root furl username password : String) (portals : List freenas.ISCSIPortal)
    (hlist : ∀ tr, env.GetISCSIPortalList tr = .ok portals)
    (hreach : (⟨.GetISCSIPortalList, .ok⟩ : StartupEvent) ∈
      (newFreeNASISCSIDriver env root furl username password).trace)
    (before : List freenas.ISCSIPortal) (p : freenas.ISCSIPortal)
    (after : List freenas.ISCSIPortal) (hsplit : portals = before ++ p :: after)
    (hp : "0.0.0.0:3260" ∈ p.IPs) (hb : ∀ q ∈ before, "0.0.0.0:3260" ∉ q.IPs) :
    ∃ t5,
      (∀ e ∈ (newFreeNASISCSIDriver env root furl username password).trace,
        e.call.isCreatePortal = false) ∧
      (newFreeNASISCSIDriver env root furl username password).trace =
        t5 ++ [⟨.ReadFile (env.filepathJoin root "freenas-state.json"),
          (env.ReadFile t5 (env.filepathJoin root "freenas-state.json")).status⟩] ∧
      match env.ReadFile t5 (env.filepathJoin root "freenas-state.json") with
      | .notExist =>
        ∃ d tr, newFreeNASISCSIDriver env root furl username password =
          .returned (.ok d) tr ∧ d.freenasPortal = p.ID
      | .failed msg =>
        ∃ tr, newFreeNASISCSIDriver env root furl username password = .returned (.error msg) tr
      | .data bytes =>
        match env.jsonUnmarshal bytes with
        | .ok _ =>
          ∃ d tr, newFreeNASISCSIDriver env root furl username password =
            .returned (.ok d) tr ∧ d.freenasPortal = p.ID
        | .error msg =>
          ∃ tr, newFreeNASISCSIDriver env root furl username password =
            .returned (.error msg) tr := by
  have hf := findAnyPortal_first before after p hp hb
  rw [← hsplit] at hf
  refine ⟨(newFreeNASISCSIDriver env root furl username password).trace.dropLast, ?_⟩
  revert hreach
  unfold newFreeNASISCSIDriver
  simp only []
  generalize env.Lstat [] root = fi
  rcases fi with (_ | _) | _ | _
  all_goals try (simp [StartupResult.trace]; done)
  cases env.urlHostname furl
  all_goals try (simp [StartupResult.trace]; done)
  simp only []
  generalize env.ServicStatus _ _ = srv
  rcases srv with ⟨iscsiSrv, err⟩ | _
  all_goals try (simp [StartupResult.trace]; done)
  simp only [hlist, Reply.status, hf, Bool.true_eq_false, if_false]
  cases iscsiSrv.Status
  · simp only [if_true]
    generalize env.UpdateService _ _ _ = upd
    cases upd
    all_goals try (simp [StartupResult.trace]; done)
    simp only [List.cons_append, List.nil_append]
    intro hreach
    clear hreach
    generalize hfile : env.ReadFile (_ :: _) _ = file
    cases file with
    | notExist =>
      simp [StartupResult.trace, StartupCall.isCreatePortal, hfile, FileData.status]
    | failed msg =>
      simp [StartupResult.trace, StartupCall.isCreatePortal, hfile, FileData.status]
    | data bytes =>
      simp only []
      generalize hdec : env.jsonUnmarshal bytes = dec
      cases dec <;>
        simp [StartupResult.trace, StartupCall.isCreatePortal, hfile, FileData.status, hdec]
  · simp only [Bool.true_eq_false, if_false, List.cons_append, List.nil_append]
    intro hreach
    clear hreach
    generalize hfile : env.ReadFile (_ :: _) _ = file
    cases file with
    | notExist =>
      simp [StartupResult.trace, StartupCall.isCreatePortal, hfile, FileData.status]
    | failed msg =>
      simp [StartupResult.trace, StartupCall.isCreatePortal, hfile, FileData.status]
    | data bytes =>
      simp only []
      generalize hdec : env.jsonUnmarshal bytes = dec
      cases dec <;>
        simp [StartupResult.trace, StartupCall.isCreatePortal, hfile, FileData.status, hdec]

set_option maxHeartbeats 8000000 in
/-- A startup that obtains the portal list and finds no portal listing `0.0.0.0:3260`
issues exactly one create-portal call, for `["0.0.0.0:3260"]`. When the call answers with
an error the startup returns that error, and when the client ends the process the startup
exits. When it answers with a portal, the state file is read next and the startup returns
the driver with that portal's id when the file does not exist or decodes, and the error of
the read or of the decoding otherwise. -/
theorem startup_creates_portal (env : StartupEnv)
    (root furl username password : String) (portals : List freenas.ISCSIPortal)
    (hlist : ∀ tr, env.GetISCSIPortalList tr = .ok portals)
    (hreach : (⟨.GetISCSIPortalList, .ok⟩ : StartupEvent) ∈
      (newFreeNASISCSIDriver env root furl username password).trace)
    (hnone : ∀ q ∈ portals, "0.0.0.0:3260" ∉ q.IPs) :
    ∃ tr0 rest,
      (newFreeNASISCSIDriver env root furl username password).trace =
        tr0 ++ ⟨.CreateISCSIPortal ["0.0.0.0:3260"],
          (env.CreateISCSIPortal tr0 ["0.0.0.0:3260"]).status⟩ :: rest ∧
      (∀ e ∈ tr0 ++ rest, e.call.isCreatePortal = false) ∧
      match env.CreateISCSIPortal tr0 ["0.0.0.0:3260"] with
      | .ok portal =>
        rest = [⟨.ReadFile (env.filepathJoin root "freenas-state.json"),
          (env.ReadFile (tr0 ++ [⟨.CreateISCSIPortal ["0.0.0.0:3260"], .ok⟩])
            (env.filepathJoin root "freenas-state.json")).status⟩] ∧
        match env.ReadFile (tr0 ++ [⟨.CreateISCSIPortal ["0.0.0.0:3260"], .ok⟩])
            (env.filepathJoin root "freenas-state.json") with
        | .notExist =>
          ∃ d tr, newFreeNASISCSIDriver env root furl username password =
            .returned (.ok d) tr ∧ d.freenasPortal = portal.ID
        | .failed msg =>
          ∃ tr, newFreeNASISCSIDriver env root furl username password =
            .returned (.error msg) tr
        | .data bytes =>
          match env.jsonUnmarshal bytes with
          | .ok _ =>
            ∃ d tr, newFreeNASISCSIDriver env root furl username password =
              .returned (.ok d) tr ∧ d.freenasPortal = portal.ID
          | .error msg =>
            ∃ tr, newFreeNASISCSIDriver env root furl username password =
              .returned (.error msg) tr
      | .error msg =>
        rest = [] ∧
        ∃ tr, newFreeNASISCSIDriver env root furl username password = .returned (.error msg) tr
      | .fatal =>
        rest = [] ∧
        ∃ tr, newFreeNASISCSIDriver env root furl username password = .exited tr := by
  have hf := findAnyPortal_none portals hnone
  refine ⟨(newFreeNASISCSIDriver env root furl username password).trace.takeWhile
      (fun e => !e.call.isCreatePortal),
    ((newFreeNASISCSIDriver env root furl username password).trace.dropWhile
      (fun e => !e.call.isCreatePortal)).tail, ?_⟩
  revert hreach
  unfold newFreeNASISCSIDriver
  simp only []
  generalize env.Lstat [] root = fi
  rcases fi with (_ | _) | _ | _
  all_goals try (simp [StartupResult.trace]; done)
  cases env.urlHostname furl
  all_goals try (simp [StartupResult.trace]; done)
  simp only []
  generalize env.ServicStatus _ _ = srv
  rcases srv with ⟨iscsiSrv, err⟩ | _
  all_goals try (simp [StartupResult.trace]; done)
  simp only [hlist, Reply.status, hf, if_true]
  cases iscsiSrv.Status
  · simp only [if_true]
    generalize env.UpdateService _ _ _ = upd
    cases upd
    all_goals try (simp [StartupResult.trace]; done)
    simp only [List.cons_append, List.nil_append]
    intro hreach
    clear hreach
    generalize hc : env.CreateISCSIPortal (_ :: _) _ = created
    cases created with
    | fatal =>
      simp [StartupResult.trace, StartupCall.isCreatePortal, hc, Reply.status]
    | error msg =>
      simp [StartupResult.trace, StartupCall.isCreatePortal, hc, Reply.status]
    | ok portal =>
      simp only []
      generalize hfile : env.ReadFile (_ :: _) _ = file
      cases file with
      | notExist =>
        simp [StartupResult.trace, StartupCall.isCreatePortal, hc, Reply.status, hfile, FileData.status]
      | failed msg =>
        simp [StartupResult.trace, StartupCall.isCreatePortal, hc, Reply.status, hfile, FileData.status]
      | data bytes =>
        simp only []
        generalize hdec : env.jsonUnmarshal bytes = dec
        cases dec <;>
          simp [StartupResult.trace, StartupCall.isCreatePortal, hc, Reply.status, hfile,
            FileData.status, hdec]
  · simp only [Bool.true_eq_false, if_false, List.cons_append, List.nil_append]
    intro hreach
    clear hreach
    generalize hc : env.CreateISCSIPortal (_ :: _) _ = created
    cases created with
    | fatal =>
      simp [StartupResult.trace, StartupCall.isCreatePortal, hc, Reply.status]
    | error msg =>
      simp [StartupResult.trace, StartupCall.isCreatePortal, hc, Reply.status]
    | ok portal =>
      simp only []
      generalize hfile : env.ReadFile (_ :: _) _ = file
      cases file with
      | notExist =>
        simp [StartupResult.trace, StartupCall.isCreatePortal, hc, Reply.status, hfile, FileData.status]
      | failed msg =>
        simp [StartupResult.trace, StartupCall.isCreatePortal, hc, Reply.status, hfile, FileData.status]
      | data bytes =>
        simp only []
        generalize hdec : env.jsonUnmarshal bytes = dec
        cases dec <;>
          simp [StartupResult.trace, StartupCall.isCreatePortal, hc, Reply.status, hfile,
            FileData.status, hdec]

/-- C12: a startup that obtains the portal list. When a portal lists `0.0.0.0:3260`, no
create-portal call is issued and the driver caches the id of the first such portal. When
none does, exactly one create-portal call is issued, for `["0.0.0.0:3260"]`, and the driver
caches the id of the portal in its answer. In both cases the state file is read last: the
driver is returned when the file does not exist or decodes, and otherwise the error of the
read or of the decoding is returned. -/
theorem startup_reuses_or_creates_portal (env : StartupEnv)
    (root furl username password : String) (portals : List freenas.ISCSIPortal)
    (hlist : ∀ tr, env.GetISCSIPortalList tr = .ok portals)
    (hreach : (⟨.GetISCSIPortalList, .ok⟩ : StartupEvent) ∈
      (newFreeNASISCSIDriver env root furl username password).trace) :
    (∀ before p after, portals = before ++ p :: after → "0.0.0.0:3260" ∈ p.IPs →
      (∀ q ∈ before, "0.0.0.0:3260" ∉ q.IPs) →
      ∃ t5,
        (∀ e ∈ (newFreeNASISCSIDriver env root furl username password).trace,
          e.call.isCreatePortal = false) ∧
        (newFreeNASISCSIDriver env root furl username password).trace =
          t5 ++ [⟨.ReadFile (env.filepathJoin root "freenas-state.json"),
            (env.ReadFile t5 (env.filepathJoin root "freenas-state.json")).status⟩] ∧
        match env.ReadFile t5 (env.filepathJoin root "freenas-state.json") with
        | .notExist =>
          ∃ d tr, newFreeNASISCSIDriver env root furl username password =
            .returned (.ok d) tr ∧ d.freenasPortal = p.ID
        | .failed msg =>
          ∃ tr, newFreeNASISCSIDriver env root furl username password =
            .returned (.error msg) tr
        | .data bytes =>
          match env.jsonUnmarshal bytes with
          | .ok _ =>
            ∃ d tr, newFreeNASISCSIDriver env root furl username password =
              .returned (.ok d) tr ∧ d.freenasPortal = p.ID
          | .error msg =>
            ∃ tr, newFreeNASISCSIDriver env root furl username password =
              .returned (.error msg) tr) ∧
    ((∀ q ∈ portals, "0.0.0.0:3260" ∉ q.IPs) →
      ∃ tr0 rest,
        (newFreeNASISCSIDriver env root furl username password).trace =
          tr0 ++ ⟨.CreateISCSIPortal ["0.0.0.0:3260"],
            (env.CreateISCSIPortal tr0 ["0.0.0.0:3260"]).status⟩ :: rest ∧
        (∀ e ∈ tr0 ++ rest, e.call.isCreatePortal = false) ∧
        match env.CreateISCSIPortal tr0 ["0.0.0.0:3260"] with
        | .ok portal =>
          rest = [⟨.ReadFile (env.filepathJoin root "freenas-state.json"),
            (env.ReadFile (tr0 ++ [⟨.CreateISCSIPortal ["0.0.0.0:3260"], .ok⟩])
              (env.filepathJoin root "freenas-state.json")).status⟩] ∧
          match env.ReadFile (tr0 ++ [⟨.CreateISCSIPortal ["0.0.0.0:3260"], .ok⟩])
              (env.filepathJoin root "freenas-state.json") with
          | .notExist =>
            ∃ d tr, newFreeNASISCSIDriver env root furl username password =
              .returned (.ok d) tr ∧ d.freenasPortal = portal.ID
          | .failed msg =>
            ∃ tr, newFreeNASISCSIDriver env root furl username password =
              .returned (.error msg) tr
          | .data bytes =>
            match env.jsonUnmarshal bytes with
            | .ok _ =>
              ∃ d tr, newFreeNASISCSIDriver env root furl username password =
                .returned (.ok d) tr ∧ d.freenasPortal = portal.ID
            | .error msg =>
              ∃ tr, newFreeNASISCSIDriver env root furl username password =
                .returned (.error msg) tr
        | .error msg =>
          rest = [] ∧
          ∃ tr, newFreeNASISCSIDriver env root furl username password =
            .returned (.error msg) tr
        | .fatal =>
          rest = [] ∧
          ∃ tr, newFreeNASISCSIDriver env root furl username password = .exited tr) :=
  ⟨fun before p after hsplit hp hb =>
      startup_reuses_portal env root furl username password portals hlist hreach before p after
        hsplit hp hb,
   fun hnone => startup_creates_portal env root furl username password portals hlist hreach hnone⟩

/-- C13 (failing input): the request of `DeleteISCSITargetToExtent` goes to the extent
endpoint: for every base URL and id it is the request of `DeleteISCSIExtent`, for instance
`DELETE http://nas/api/v1.0/services/iscsi/extent/14/`, while `CreateISCSITargetToExtent`
posts to the `targettoextent` collection. -/
theorem DeleteISCSITargetToExtent_uses_extent_endpoint :
    (∀ url id, freenas.DeleteISCSITargetToExtent url id = freenas.DeleteISCSIExtent url id) ∧
    freenas.DeleteISCSITargetToExtent "http://nas" 14 =
      ⟨"DELETE", "http://nas/api/v1.0/services/iscsi/extent/14/", none⟩ ∧
    (freenas.CreateISCSITargetToExtent "http://nas" 11 13).url =
      "http://nas/api/v1.0/services/iscsi/targettoextent/" :=
  ⟨fun _ _ => rfl, by decide, by decide⟩

/-! ## Witnesses -/

/-- Witness for C2: the target creation answers HTTP 500 while `v0` is registered. -/
theorem Create_provisioning_error_keeps_registry_witness :
    (⟨.CreateISCSITarget "docker-v1", .error "HTTP Status: 500"⟩ : Event) ∈
      (FreeNASISCSIDriver.Create Env.targetFails (demoState [("v0", demoVolume)])
        { Name := "v1", Options := [("size", "5")] }).newEvents
        (demoState [("v0", demoVolume)]) ∧
    ∃ s', FreeNASISCSIDriver.Create Env.targetFails (demoState [("v0", demoVolume)])
        { Name := "v1", Options := [("size", "5")] } =
        .returned (some "HTTP Status: 500") s' ∧
      s'.driver.volumes = (demoState [("v0", demoVolume)]).driver.volumes ∧
      ∀ e ∈ (FreeNASISCSIDriver.Create Env.targetFails (demoState [("v0", demoVolume)])
        { Name := "v1", Options := [("size", "5")] }).newEvents
        (demoState [("v0", demoVolume)]), e.call.isDelete = false :=
  ⟨by decide,
   Create_provisioning_error_keeps_registry Env.targetFails (demoState [("v0", demoVolume)])
     { Name := "v1", Options := [("size", "5")] }
     ⟨.CreateISCSITarget "docker-v1", .error "HTTP Status: 500"⟩ "HTTP Status: 500"
     (by decide) (by decide) rfl⟩

/-- Witness for C7: a `Mount` at count `1`. -/
theorem Mount_already_mounted_witness :
    Registry.get (demoState [("v1", { demoVolume with connections := 1 })]).driver.volumes "v1" =
      some { demoVolume with connections := 1 } ∧
    ∃ s', FreeNASISCSIDriver.Mount Env.shFails
        (demoState [("v1", { demoVolume with connections := 1 })]) "v1" =
        .returned (.ok "/mnt/freenas/volumes/v1") s' ∧
      s'.trace = [] ∧ s'.connections "v1" = some 2 := by
  refine ⟨by decide, ?_⟩
  obtain ⟨s', h1, h2, h3, -, -⟩ := Mount_already_mounted Env.shFails
    (demoState [("v1", { demoVolume with connections := 1 })]) "v1"
    { demoVolume with connections := 1 } (by decide) (by decide) (by decide)
  exact ⟨s', h1, h2, by simp [State.connections, h3]⟩

/-- Witness for C8: a `Remove` at count `1`. -/
theorem Remove_busy_witness :
    Registry.get (demoState [("v1", { demoVolume with connections := 1 })]).driver.volumes "v1" =
      some { demoVolume with connections := 1 } ∧
    FreeNASISCSIDriver.Remove Env.allOk
        (demoState [("v1", { demoVolume with connections := 1 })]) "v1" =
      .returned (some "volume v1 is currently used by a container")
        (demoState [("v1", { demoVolume with connections := 1 })]) :=
  ⟨by decide,
   Remove_busy Env.allOk (demoState [("v1", { demoVolume with connections := 1 })]) "v1"
     { demoVolume with connections := 1 } (by decide) (by decide)⟩

/-- An instance of the teardown in which two of the five delete calls answer with an HTTP
error and the remaining calls are still issued. -/
theorem Remove_tears_down_in_order_witness :
    Registry.get (demoState [("v0", demoVolume), ("v1", demoVolume)]).driver.volumes "v1" =
      some demoVolume ∧
    ∃ s', FreeNASISCSIDriver.Remove Env.deleteFails
        (demoState [("v0", demoVolume), ("v1", demoVolume)]) "v1" = .returned none s' ∧
      s'.trace.map Event.call =
        [.DeleteISCSITargetToExtent 14, .DeleteISCSIExtent 13, .DeleteISCSITargetGroup 12,
         .DeleteISCSITarget 11, .DeleteZFSVolume "tank" "docker-v1",
         .WriteFile "/mnt/freenas/freenas-state.json"] ∧
      Registry.get s'.driver.volumes "v1" = none := by
  refine ⟨by decide, ?_⟩
  obtain ⟨s', h1, h2, h3, -⟩ := Remove_tears_down_in_order Env.deleteFails
    (demoState [("v0", demoVolume), ("v1", demoVolume)]) "v1" demoVolume (by decide) (by decide)
    (fun _ _ => by simp [Env.deleteFails, Env.allOk])
    (fun _ _ => by simp [Env.deleteFails, Env.allOk])
    (fun _ _ => by simp [Env.deleteFails, Env.allOk])
    (fun _ _ => by simp [Env.deleteFails, Env.allOk])
    (fun _ _ _ => by simp [Env.deleteFails, Env.allOk])
  exact ⟨s', h1, h2, h3⟩

/-- Witness for C12: among three portals the second is the first to list the wildcard
address: no portal is created and the driver caches the id `2`; with a single portal that
does not list it, one portal is created and the driver caches the id `7` of the answer. -/
theorem startup_reuses_or_creates_portal_witness :
    ((⟨.GetISCSIPortalList, .ok⟩ : StartupEvent) ∈
      (newFreeNASISCSIDriver (StartupEnv.demo demoPortals) "/mnt/freenas" "http://nas" "root"
        "secret").trace ∧
     ∃ d tr, newFreeNASISCSIDriver (StartupEnv.demo demoPortals) "/mnt/freenas" "http://nas"
        "root" "secret" = .returned (.ok d) tr ∧ d.freenasPortal = 2) ∧
    ((⟨.GetISCSIPortalList, .ok⟩ : StartupEvent) ∈
      (newFreeNASISCSIDriver (StartupEnv.demo [{ ID := 1, IPs := ["10.0.0.1:3260"] }])
        "/mnt/freenas" "http://nas" "root" "secret").trace ∧
     ∃ d tr, newFreeNASISCSIDriver (StartupEnv.demo [{ ID := 1, IPs := ["10.0.0.1:3260"] }])
        "/mnt/freenas" "http://nas" "root" "secret" = .returned (.ok d) tr ∧
        d.freenasPortal = 7) := by
  refine ⟨⟨by decide, ?_⟩, ⟨by decide, ?_⟩⟩
  · obtain ⟨t5, -, -, h⟩ := (startup_reuses_or_creates_portal (StartupEnv.demo demoPortals)
      "/mnt/freenas" "http://nas" "root" "secret" demoPortals (fun _ => rfl) (by decide)).1
      [{ ID := 1, IPs := ["10.0.0.1:3260"] }]
      { ID := 2, IPs := ["10.0.0.2:3260", "0.0.0.0:3260"] }
      [{ ID := 3, IPs := ["0.0.0.0:3260"] }] rfl (by decide) (by decide)
    exact h
  · obtain ⟨tr0, rest, -, -, h⟩ := (startup_reuses_or_creates_portal
      (StartupEnv.demo [{ ID := 1, IPs := ["10.0.0.1:3260"] }])
      "/mnt/freenas" "http://nas" "root" "secret" [{ ID := 1, IPs := ["10.0.0.1:3260"] }]
      (fun _ => rfl) (by decide)).2 (by decide)
    exact h.2
